import Mathlib

/-!
Verification of the photosort core: a shallow embedding of the template
engine (src/template/mod.rs), the variable context and providers
(src/template/context.rs, src/template/variables/
), the replicator
fallback chain (src/replicator.rs), the sort decision pipeline
(src/sort.rs) and the watch event adapter (src/bin/photosort/watch.rs).

Rust strings are modelled as `List Char` together with their UTF-8 byte
structure where byte indexing matters; `Option` layers model panics
(`none` = the Rust code panics / hits `unreachable!`); fallible
operations return `Except`.  The filesystem is an external collaborator
and is modelled as an abstract state `σ` with an operation record.
-/

/-- Decidable equality for `Except` results (not provided by the core
library), so that concrete runs can be settled by `decide`. -/
instance {ε : Type u} {α : Type v} [DecidableEq ε] [DecidableEq α] :
    DecidableEq (Except ε α) := fun x y =>
  match x, y with
  | Except.ok a, Except.ok b =>
    decidable_of_iff (a = b) ⟨by rintro rfl; rfl, fun h => by injection h⟩
  | Except.error a, Except.error b =>
    decidable_of_iff (a = b) ⟨by rintro rfl; rfl, fun h => by injection h⟩
  | Except.ok _, Except.error _ => isFalse fun h => Except.noConfusion h
  | Except.error _, Except.ok _ => isFalse fun h => Except.noConfusion h

namespace Photosort

/-! ## Rust path model

A `RPath` is the component list of a Rust `Path` (Rust `Path` equality
compares components).  A `".."` component is kept verbatim; an absolute
path starts with the root component `"/"`. -/

abbrev RPath := List String

/-- Rust `Path::parent`: drop the last component; `None` for an empty path. -/
def RPath.parent (p : RPath) : Option RPath :=
  if p = [] then none else some p.dropLast

/-- Rust `Path::file_name`: the last component when it is a normal
component (not `".."`, not the root). -/
def rustFileName (p : RPath) : Option String :=
  match p.getLast? with
  | some c => if c = ".." ∨ c = "/" then none else some c
  | none => none

/-- Position of the last `'.'` in a file name, as the pair
(before, after), mirroring `rsplitn(2, '.')`; `none` when the name
contains no dot. -/
def splitAtLastDot (l : List Char) : Option (List Char × List Char) :=
  match l with
  | [] => none
  | c :: rest =>
    match splitAtLastDot rest with
    | some (before, after) => some (c :: before, after)
    | none => if c = '.' then some ([], rest) else none

/-- Rust `split_file_at_dot` stem part: the whole name when there is no
dot or when the only dot is leading (hidden files). -/
def rustStemOfName (n : List Char) : List Char :=
  match splitAtLastDot n with
  | none => n
  | some ([], _) => n
  | some (before, _) => before

/-- Rust `split_file_at_dot` extension part. -/
def rustExtOfName (n : List Char) : Option (List Char) :=
  match splitAtLastDot n with
  | none => none
  | some ([], _) => none
  | some (_, after) => some after

/-- Rust `Path::file_stem` on a component path. -/
def rustFileStem (p : RPath) : Option String :=
  (rustFileName p).map fun n => String.mk (rustStemOfName n.toList)

/-- Rust `Path::extension` on a component path. -/
def rustExtension (p : RPath) : Option String :=
  (rustFileName p).bind fun n => (rustExtOfName n.toList).map String.mk

/-- Split a character list on `'/'` separators. -/
def splitSlash : List Char → List (List Char)
  | [] => [[]]
  | c :: rest =>
    let r := splitSlash rest
    if c = '/' then [] :: r
    else
      match r with
      | h :: t => (c :: h) :: t
      | [] => [[c]]

/-- `PathBuf::from(string)` followed by component iteration: split on
`'/'`, drop empty and `"."` segments, record a leading root. -/
def pathOfString (s : String) : RPath :=
  let l := s.toList
  let comps := ((splitSlash l).map String.mk).filter fun c => c ≠ "" ∧ c ≠ "."
  match l with
  | '/' :: _ => "/" :: comps
  | _ => comps

/-! ## UTF-8 byte structure

Rust `&s[a..b]` slices at byte offsets and panics when an offset is not
a character boundary.  `byteSlice` returns `none` exactly when Rust
would panic. -/

/-- Number of UTF-8 bytes of a character. -/
def utf8Size (c : Char) : Nat :=
  if c.toNat < 0x80 then 1
  else if c.toNat < 0x800 then 2
  else if c.toNat < 0x10000 then 3
  else 4

/-- Total UTF-8 byte length of a string. -/
def byteLen (l : List Char) : Nat := (l.map utf8Size).sum

/-- Drop `n` bytes from the front; `none` when `n` overruns the string
or does not land on a character boundary. -/
def dropBytes : List Char → Nat → Option (List Char)
  | l, 0 => some l
  | [], _ + 1 => none
  | c :: rest, n + 1 =>
    if utf8Size c ≤ n + 1 then dropBytes rest (n + 1 - utf8Size c) else none

/-- Take `n` bytes from the front; `none` when `n` overruns the string
or does not land on a character boundary. -/
def takeBytes : List Char → Nat → Option (List Char)
  | _, 0 => some []
  | [], _ + 1 => none
  | c :: rest, n + 1 =>
    if utf8Size c ≤ n + 1 then (takeBytes rest (n + 1 - utf8Size c)).map (c :: ·)
    else none

/-- Rust byte-offset slicing `&s[a..b]`; `none` models the slicing panic. -/
def byteSlice (l : List Char) (a b : Nat) : Option (List Char) :=
  if a ≤ b then (dropBytes l a).bind fun suffix => takeBytes suffix (b - a)
  else none

/-! ## Template (src/template/mod.rs) -/

/-- A template token: literal string fragment or variable reference. -/
inductive Token where
  | str (s : String)
  | var (s : String)
deriving DecidableEq, Repr

/-- A parsed template: an ordered token sequence. -/
structure Template where
  tokens : List Token
deriving DecidableEq, Repr

/-- `ParseError` from src/template/mod.rs (the source spells it
`UnamedVariable`). -/
inductive ParseError where
  | unamedVariable (i : Nat)
  | unclosedVariable (i : Nat)
deriving DecidableEq, Repr

/-- Parser loop state: accumulated tokens plus the byte/char start index
of the current variable or literal run (`variable_start_index`,
`string_start_index` in the source). -/
structure PState where
  tokens : List Token
  varStart : Option Nat
  strStart : Option Nat
deriving DecidableEq, Repr

/-- One iteration of the `for (i, c) in s.chars().enumerate()` loop of
`Template::from_str`.  `i` is the CHAR index, but the source slices
`&s[start..i]` with it as a BYTE offset; `none` models the resulting
slicing panic on multi-byte input. -/
def fromStrStep (s : List Char) (st : PState) (i : Nat) (c : Char) :
    Option (Except ParseError PState) :=
  if c = ':' then
    match st.strStart with
    | some ss =>
      if ss ≠ i then
        match byteSlice s ss i with
        | none => none
        | some frag =>
          some (Except.ok { tokens := st.tokens ++ [Token.str (String.mk frag)],
                            varStart := some (i + 1), strStart := none })
      else
        some (Except.ok { st with varStart := some (i + 1), strStart := none })
    | none =>
      match st.varStart with
      | some vs =>
        if vs = i then some (Except.error (ParseError.unamedVariable i))
        else
          match byteSlice s vs i with
          | none => none
          | some frag =>
            some (Except.ok { tokens := st.tokens ++ [Token.var (String.mk frag)],
                              varStart := none, strStart := some (i + 1) })
      | none => some (Except.ok st)
  else some (Except.ok st)

/-- The whole parser loop over the enumerated characters. -/
def fromStrLoop (s : List Char) :
    List (Nat × Char) → PState → Option (Except ParseError PState)
  | [], st => some (Except.ok st)
  | (i, c) :: rest, st =>
    match fromStrStep s st i c with
    | none => none
    | some (Except.error e) => some (Except.error e)
    | some (Except.ok st2) => fromStrLoop s rest st2

/-- `Template::from_str` (src/template/mod.rs lines 83-126).  After the
loop: a pending literal run is flushed when it started before the last
char position (`start_str < char_count - 1`); a pending variable is
`UnclosedVariable(s.len() - 1)` (byte length); the dead
`tokens.is_empty() && !s.is_empty()` branch pushes the whole string.
`none` models a byte-slicing panic. -/
def Template.fromStr (str : String) : Option (Except ParseError Template) :=
  let s := str.toList
  match fromStrLoop s s.enum { tokens := [], varStart := none, strStart := some 0 } with
  | none => none
  | some (Except.error e) => some (Except.error e)
  | some (Except.ok st) =>
    match st.strStart with
    | some ss =>
      if ss < s.length then
        match byteSlice s ss (byteLen s) with
        | none => none
        | some frag =>
          some (Except.ok { tokens := st.tokens ++ [Token.str (String.mk frag)] })
      else some (Except.ok { tokens := st.tokens })
    | none =>
      if st.varStart.isSome then
        some (Except.error (ParseError.unclosedVariable (byteLen s - 1)))
      else if st.tokens.isEmpty ∧ s ≠ [] then
        some (Except.ok { tokens := [Token.str str] })
      else some (Except.ok { tokens := st.tokens })

/-! ## Provider errors (boxed `dyn Error` values in the source) -/

/-- `FileNameDateError` from src/template/variables/file.rs. -/
inductive FileNameDateError where
  | dateNotFound
  | notUTF8String
  | parseError
deriving DecidableEq, Repr

/-- Closed model of the boxed provider errors (`Box<dyn Error>`). -/
inductive VErr where
  | missingVariable (name : String)
  | exifMissingField (field : String)
  | exifWrongType
  | exifParseDateTime
  | fileNameDate (e : FileNameDateError)
  | io (msg : String)
deriving DecidableEq, Repr

/-- `RenderError` from src/template/mod.rs (the unused `BuildString`
variant is omitted: `render` never constructs it). -/
inductive RenderError where
  | undefinedVariable (name : String)
  | variableRender (name : String) (cause : VErr)
deriving DecidableEq, Repr

/-! ## Exif data (external metadata collaborator, src/template/variables/exif.rs) -/

/-- The `Tag::DateTime` field of a parsed exif container, as
`ExifTemplateValue::datetime` discriminates it: absent, of a non-ascii
type, ascii that `DateTime::from_ascii` rejects, or a parsed datetime. -/
inductive ExifDateTimeField where
  | missing
  | wrongType
  | badAscii
  | present (year month day : Nat)
deriving DecidableEq, Repr

/-- A parsed exif container (`Exif`), reduced to the field the code reads. -/
structure ExifData where
  dateTimeField : ExifDateTimeField
deriving DecidableEq, Repr

/-- Zero-padded decimal rendering (`format!` with width 2). -/
def pad2 (n : Nat) : String :=
  if n < 10 then "0" ++ toString n else toString n

/-- Zero-padded decimal rendering (`format!` with width 4). -/
def pad4 (n : Nat) : String :=
  if n < 10 then "000" ++ toString n
  else if n < 100 then "00" ++ toString n
  else if n < 1000 then "0" ++ toString n
  else toString n

/-- `ExifTemplateValue::datetime` (src/template/variables/exif.rs lines
31-45): the missing field is a hard `MissingField` error. -/
def exifDatetime (e : ExifData) : Except VErr (Nat × Nat × Nat) :=
  match e.dateTimeField with
  | ExifDateTimeField.missing => Except.error (VErr.exifMissingField "DateTime")
  | ExifDateTimeField.wrongType => Except.error VErr.exifWrongType
  | ExifDateTimeField.badAscii => Except.error VErr.exifParseDateTime
  | ExifDateTimeField.present y m d => Except.ok (y, m, d)

/-- `ExifTemplateValue::date`. -/
def exifDate (e : ExifData) : Except VErr String :=
  (exifDatetime e).map fun d => pad4 d.1 ++ "-" ++ pad2 d.2.1 ++ "-" ++ pad2 d.2.2

/-- `ExifTemplateValue::date_year`. -/
def exifDateYear (e : ExifData) : Except VErr String :=
  (exifDatetime e).map fun d => pad4 d.1

/-- `ExifTemplateValue::date_month`. -/
def exifDateMonth (e : ExifData) : Except VErr String :=
  (exifDatetime e).map fun d => pad2 d.2.1

/-- `ExifTemplateValue::date_day`. -/
def exifDateDay (e : ExifData) : Except VErr String :=
  (exifDatetime e).map fun d => pad2 d.2.2

/-! ## Filename date extraction (src/template/variables/file.rs)

`DATE_REGEX` is `[0-9]{4}(-|_)?(0[1-9]|1[0-2])(-|_)?([0-2][1-9]|3[0-1])`;
`find` looks for a match starting at any position. -/

/-- `[0-9]`. -/
def isDigitCh (c : Char) : Bool := '0' ≤ c ∧ c ≤ '9'

/-- `(-|_)`. -/
def isSepCh (c : Char) : Bool := c = '-' ∨ c = '_'

/-- The month alternation `(0[1-9]|1[0-2])`. -/
def monthAlt (a b : Char) : Bool :=
  (a = '0' ∧ '1' ≤ b ∧ b ≤ '9') ∨ (a = '1' ∧ '0' ≤ b ∧ b ≤ '2')

/-- The day alternation `([0-2][1-9]|3[0-1])` exactly as written in the
source regex. -/
def dayAlt (a b : Char) : Bool :=
  ('0' ≤ a ∧ a ≤ '2' ∧ '1' ≤ b ∧ b ≤ '9') ∨ (a = '3' ∧ (b = '0' ∨ b = '1'))

/-- Match `([0-2][1-9]|3[0-1])` at the front, returning the matched
characters (the trailing input may continue arbitrarily, as with
`Regex::find`). -/
def matchDay : List Char → Option (List Char)
  | a :: b :: _ => if dayAlt a b then some [a, b] else none
  | _ => none

/-- Match `(-|_)?([0-2][1-9]|3[0-1])` at the front (greedy optional
separator, as in the regex crate). -/
def matchSepDay (l : List Char) : Option (List Char) :=
  match l with
  | c :: rest =>
    if isSepCh c then
      match matchDay rest with
      | some m => some (c :: m)
      | none => matchDay l
    else matchDay l
  | [] => none

/-- Match `(0[1-9]|1[0-2])(-|_)?([0-2][1-9]|3[0-1])` at the front. -/
def matchMonthSepDay : List Char → Option (List Char)
  | a :: b :: rest =>
    if monthAlt a b then (matchSepDay rest).map fun m => a :: b :: m
    else none
  | _ => none

/-- Match the full `DATE_REGEX` at the front of the input. -/
def matchDateAt : List Char → Option (List Char)
  | y1 :: y2 :: y3 :: y4 :: rest =>
    if isDigitCh y1 ∧ isDigitCh y2 ∧ isDigitCh y3 ∧ isDigitCh y4 then
      match rest with
      | c :: rest2 =>
        if isSepCh c then
          match matchMonthSepDay rest2 with
          | some m => some (y1 :: y2 :: y3 :: y4 :: c :: m)
          | none => (matchMonthSepDay rest).map fun m => y1 :: y2 :: y3 :: y4 :: m
        else (matchMonthSepDay rest).map fun m => y1 :: y2 :: y3 :: y4 :: m
      | [] => none
    else none
  | _ => none

/-- `DATE_REGEX.find`: first position with a match (leftmost). -/
def dateRegexFind : List Char → Option (List Char)
  | [] => matchDateAt []
  | c :: rest =>
    match matchDateAt (c :: rest) with
    | some m => some m
    | none => dateRegexFind rest

/-- Gregorian leap year (chrono's calendar). -/
def isLeapYear (y : Nat) : Bool :=
  y % 4 = 0 ∧ (y % 100 ≠ 0 ∨ y % 400 = 0)

/-- Days in a month (chrono's calendar). -/
def daysInMonth (y m : Nat) : Nat :=
  if m = 2 then (if isLeapYear y then 29 else 28)
  else if m = 4 ∨ m = 6 ∨ m = 9 ∨ m = 11 then 30
  else 31

/-- `NaiveDate::parse_from_str(digits, "%Y%m%d")` on an 8-digit string:
split into year, month, day and validate against the calendar. -/
def parseYmd (l : List Char) : Except FileNameDateError (Nat × Nat × Nat) :=
  match l with
  | [y1, y2, y3, y4, m1, m2, d1, d2] =>
    if (isDigitCh y1 ∧ isDigitCh y2 ∧ isDigitCh y3 ∧ isDigitCh y4 ∧
        isDigitCh m1 ∧ isDigitCh m2 ∧ isDigitCh d1 ∧ isDigitCh d2) then
      let y := ((y1.toNat - 48) * 1000 + (y2.toNat - 48) * 100 +
                (y3.toNat - 48) * 10 + (y4.toNat - 48))
      let m := (m1.toNat - 48) * 10 + (m2.toNat - 48)
      let d := (d1.toNat - 48) * 10 + (d2.toNat - 48)
      if 1 ≤ m ∧ m ≤ 12 ∧ 1 ≤ d ∧ d ≤ daysInMonth y m then Except.ok (y, m, d)
      else Except.error FileNameDateError.parseError
    else Except.error FileNameDateError.parseError
  | _ => Except.error FileNameDateError.parseError

/-- `FileTemplateValue::filename_naivedate` (src/template/variables/file.rs
lines 69-83) applied to the path's `to_str()` result: `none` models a
non-UTF-8 path.  On a match, separators are stripped and the remaining
digits parsed as `%Y%m%d`. -/
def filenameNaivedate (pathStr : Option String) :
    Except FileNameDateError (Nat × Nat × Nat) :=
  match pathStr with
  | none => Except.error FileNameDateError.notUTF8String
  | some f =>
    match dateRegexFind f.toList with
    | some m => parseYmd (m.filter fun c => ¬ isSepCh c)
    | none => Except.error FileNameDateError.dateNotFound

/-! ## Context and template values (src/template/context.rs)

`TemplateValue` is a trait; its implementors in the core are string-like
constants (`String`, `&str`, `OsString`, `PathBuf` — all render to their
own textual content), `FileTemplateValue` and `ExifTemplateValue`.  We
model it as the closed sum below (Design Notes of the spec: "model as a
closed tagged-variant type").  A `PathBuf`/`OsString` value is carried
as its textual form. -/

/-- Closed model of the `TemplateValue` implementors. -/
inductive TValue where
  | const (s : String)
  | file
  | exif (e : ExifData)
deriving DecidableEq, Repr

/-- `Context`: a name-to-index map over an owned value vector
(`variables: HashMap<String, usize>`, `template_values: Vec<…>`).  The
map is modelled as an association list where the most recent insert
shadows older entries, matching `HashMap::insert` overwrite. -/
structure Context where
  varMap : List (String × Nat)
  templateValues : List TValue
deriving Repr

/-- Empty context (`Context::default()`). -/
def Context.empty : Context := { varMap := [], templateValues := [] }

/-- `Context::get`: map the key through `variables`, then index into
`template_values`. -/
def Context.get (ctx : Context) (key : String) : Option TValue :=
  match ctx.varMap.lookup key with
  | some idx => ctx.templateValues.get? idx
  | none => none

/-- `Context::insert`: push the value, then map every key to its index.
The source asserts the key list is nonempty; every call site passes a
literal nonempty list. -/
def Context.insert (ctx : Context) (keys : List String) (v : TValue) : Context :=
  let idx := ctx.templateValues.length
  { varMap := keys.foldl (fun m k => (k, idx) :: m) ctx.varMap,
    templateValues := ctx.templateValues ++ [v] }

/-- `ctx.get_or_err(":file.path")?.render("", ctx)`, the private-path
fetch every file provider starts with.  A `const` value ignores the
name and renders to itself; calling `FileTemplateValue`/
`ExifTemplateValue` with the name `""` hits `unreachable!`, so `none`
models that panic. -/
def renderPrivPath (ctx : Context) : Option (Except VErr String) :=
  match ctx.get ":file.path" with
  | none => some (Except.error (VErr.missingVariable ":file.path"))
  | some (TValue.const s) => some (Except.ok s)
  | some TValue.file => none
  | some (TValue.exif _) => none

/-- `FileTemplateValue::filepathbuf`: `PathBuf::from(self.filepath(ctx).unwrap())`.
The `unwrap` panics when the private path is missing or fails, hence
the outer `Option`. -/
def filepathbuf (ctx : Context) : Option RPath :=
  match renderPrivPath ctx with
  | some (Except.ok s) => some (pathOfString s)
  | _ => none

/-- The same path kept in textual form (`filename.to_str()` in
`filename_naivedate`; the `const` model is always valid UTF-8). -/
def filepathStr (ctx : Context) : Option String :=
  match renderPrivPath ctx with
  | some (Except.ok s) => some s
  | _ => none

/-- `FileTemplateValue::render` (src/template/variables/file.rs lines
106-120): dispatch on the variable name; unknown names hit
`unreachable!` (`none`). -/
def fileRender (name : String) (ctx : Context) : Option (Except VErr String) :=
  if name = "file.path" then renderPrivPath ctx
  else if name = "file.name" then
    (filepathbuf ctx).map fun p => Except.ok ((rustFileName p).getD "")
  else if name = "file.stem" then
    (filepathbuf ctx).map fun p => Except.ok ((rustFileStem p).getD "")
  else if name = "file.extension" then
    (filepathbuf ctx).map fun p => Except.ok ((rustExtension p).getD "")
  else if name = "file.name.date" then
    (filepathStr ctx).map fun s =>
      (filenameNaivedate (some s)).map
        (fun d => pad4 d.1 ++ "-" ++ pad2 d.2.1 ++ "-" ++ pad2 d.2.2)
        |>.mapError VErr.fileNameDate
  else if name = "file.name.date.year" then
    (filepathStr ctx).map fun s =>
      (filenameNaivedate (some s)).map (fun d => pad4 d.1) |>.mapError VErr.fileNameDate
  else if name = "file.name.date.month" then
    (filepathStr ctx).map fun s =>
      (filenameNaivedate (some s)).map (fun d => pad2 d.2.1) |>.mapError VErr.fileNameDate
  else if name = "file.name.date.day" then
    (filepathStr ctx).map fun s =>
      (filenameNaivedate (some s)).map (fun d => pad2 d.2.2) |>.mapError VErr.fileNameDate
  else none

/-- `ExifTemplateValue::render` (src/template/variables/exif.rs lines
69-79). -/
def exifRender (e : ExifData) (name : String) : Option (Except VErr String) :=
  if name = "exif.date" then some (exifDate e)
  else if name = "exif.date.year" then some (exifDateYear e)
  else if name = "exif.date.month" then some (exifDateMonth e)
  else if name = "exif.date.day" then some (exifDateDay e)
  else none

/-- `TemplateValue::render` over the closed sum. -/
def TValue.render (v : TValue) (name : String) (ctx : Context) :
    Option (Except VErr String) :=
  match v with
  | TValue.const s => some (Except.ok s)
  | TValue.file => fileRender name ctx
  | TValue.exif e => exifRender e name

/-- The token loop of `Template::render` (src/template/mod.rs lines
52-77): literals append, variables are looked up (`UndefinedVariable`
when absent) and rendered (failures wrapped as `VariableRender`). -/
def renderTokens (ctx : Context) :
    List Token → String → Option (Except RenderError String)
  | [], acc => some (Except.ok acc)
  | Token.str s :: rest, acc => renderTokens ctx rest (acc ++ s)
  | Token.var name :: rest, acc =>
    match ctx.get name with
    | none => some (Except.error (RenderError.undefinedVariable name))
    | some v =>
      match v.render name ctx with
      | none => none
      | some (Except.error e) =>
        some (Except.error (RenderError.variableRender name e))
      | some (Except.ok val) => renderTokens ctx rest (acc ++ val)

/-- `Template::render`, producing the destination path's textual form. -/
def Template.render (t : Template) (ctx : Context) :
    Option (Except RenderError String) :=
  renderTokens ctx t.tokens ""

/-! ## Exif context preparation (src/template/variables/exif.rs lines 81-109) -/

/-- Outcome of `Reader::new().read_from_container(...)` for the file
behind the seeded path: a parsed container, an I/O failure, or a
non-I/O parse failure. -/
inductive ContainerRead where
  | exifOk (e : ExifData)
  | ioErr (msg : String)
  | parseErr
deriving DecidableEq, Repr

/-- `exif::prepare_template_context`: fetch the private path
(`unwrap` panic when absent, render failures propagate), open the file
(`openRes`), read the container (`readRes`).  I/O failures propagate;
a non-I/O parse failure returns `Ok` WITHOUT registering any `exif.*`
variable; success registers the four `exif.*` names. -/
def exifPrepareContext (ctx : Context) (openRes : Except String Unit)
    (readRes : ContainerRead) : Option (Except VErr Context) :=
  match ctx.get ":file.path" with
  | none => none
  | some v =>
    match v.render "" ctx with
    | none => none
    | some (Except.error e) => some (Except.error e)
    | some (Except.ok _) =>
      match openRes with
      | Except.error msg => some (Except.error (VErr.io msg))
      | Except.ok _ =>
        match readRes with
        | ContainerRead.ioErr msg => some (Except.error (VErr.io msg))
        | ContainerRead.parseErr => some (Except.ok ctx)
        | ContainerRead.exifOk e =>
          some (Except.ok (ctx.insert
            ["exif.date", "exif.date.year", "exif.date.month", "exif.date.day"]
            (TValue.exif e)))

/-! ## Replicator strategies and fallback chain (src/replicator.rs)

`io::Error` values are modelled by `IoError`: the fixed sentinel error
of `NoneReplicator`, the composite error `ReplicatorWithFallback`
builds (`io::Error::new(Other, ReplicatorFallbackError(kind, err,
fallback_err))`), and arbitrary primitive errors.  The filesystem side
effect of a strategy is an abstract state transition on `σ`. -/

/-- Model of `io::Error` values flowing through the replication code. -/
inductive IoError where
  | sentinel
  | fallbackWrap (kind : String) (primary : IoError) (fallbackCause : IoError)
  | custom (msg : String)
deriving DecidableEq, Repr

/-- `NONE_REPLICATE_ERR_MSG` (src/replicator.rs line 225). -/
def noneReplicateErrMsg : String := "none replicator reached: replicate failed"

/-- `to_string()` of a modelled `io::Error`: the sentinel displays its
fixed message; the composite displays the `ReplicatorFallbackError`
format string; a custom error its own message. -/
def IoError.toMessage : IoError → String
  | IoError.sentinel => noneReplicateErrMsg
  | IoError.fallbackWrap kind primary fb =>
    kind ++ " replicator: " ++ primary.toMessage ++ ", " ++ fb.toMessage
  | IoError.custom msg => msg

/-- `ReplicatorKind` (src/replicator.rs lines 16-24). -/
inductive ReplicatorKind where
  | noneKind
  | copy
  | hardLink
  | softLink
deriving DecidableEq, Repr

/-- `Display for ReplicatorKind`. -/
def ReplicatorKind.kindStr : ReplicatorKind → String
  | ReplicatorKind.noneKind => "none"
  | ReplicatorKind.copy => "copy"
  | ReplicatorKind.hardLink => "hardlink"
  | ReplicatorKind.softLink => "softlink"

/-- A `Box<dyn Replicator>` value: the sentinel `NoneReplicator`, a
primitive strategy whose side effect is the abstract transition `run`
(copy/hardlink/softlink/mocks), or `ReplicatorWithFallback`. -/
inductive Replicator (σ : Type) where
  | noneRep : Replicator σ
  | prim (kind : ReplicatorKind) (run : RPath → RPath → σ → Except IoError Unit × σ) :
      Replicator σ
  | withFallback (inner fallback : Replicator σ) : Replicator σ

/-- `Replicator::kind` (`ReplicatorWithFallback::kind` forwards to the
inner strategy). -/
def Replicator.kind {σ : Type} : Replicator σ → ReplicatorKind
  | Replicator.noneRep => ReplicatorKind.noneKind
  | Replicator.prim k _ => k
  | Replicator.withFallback inner _ => inner.kind

/-- `Replicator::replicate` (src/replicator.rs lines 188-202 for the
chain case, 234-236 for the sentinel): the chain tries the inner
strategy, falls back on failure, and when both fail returns the
composite `ReplicatorFallbackError` built from its own kind string and
both causes. -/
def Replicator.replicate {σ : Type} :
    Replicator σ → RPath → RPath → σ → Except IoError Unit × σ
  | Replicator.noneRep, _, _, s => (Except.error IoError.sentinel, s)
  | Replicator.prim _ run, src, dst, s => run src dst s
  | Replicator.withFallback inner fb, src, dst, s =>
    match inner.replicate src dst s with
    | (Except.ok _, s2) => (Except.ok (), s2)
    | (Except.error e, s2) =>
      match fb.replicate src dst s2 with
      | (Except.ok _, s3) => (Except.ok (), s3)
      | (Except.error e2, s3) =>
        (Except.error (IoError.fallbackWrap inner.kind.kindStr e e2), s3)

/-- `FromIterator<Box<dyn Replicator>>` (src/replicator.rs lines
106-117): an empty list degenerates to the sentinel; otherwise the
first strategy chained over the rest. -/
def Replicator.fromIter {σ : Type} : List (Replicator σ) → Replicator σ
  | [] => Replicator.noneRep
  | r :: rest => Replicator.withFallback r (Replicator.fromIter rest)

/-! ## Sort engine (src/sort.rs)

The filesystem is the abstract state `σ`; the operations the engine
calls are collected in `FsWorld`.  `canonicalize` is part of the
collaborator interface (`fs::canonicalize`) — note that
`Sorter::replicate_file` never calls it (the source carries a
`TODO canonicalize src and replicate path` comment). -/

/-- The filesystem collaborator: existence/kind queries, the mutating
operations, and `fs::canonicalize`. -/
structure FsWorld (σ : Type) where
  pathExists : σ → RPath → Bool
  isDir : σ → RPath → Bool
  removeDirAll : σ → RPath → Except IoError Unit × σ
  removeFile : σ → RPath → Except IoError Unit × σ
  createDirAll : σ → RPath → Except IoError Unit × σ
  canonicalize : σ → RPath → Option RPath

/-- `sort::Config`: overwrite flag plus the replicator chain. -/
structure SortConfig (σ : Type) where
  overwrite : Bool
  replicator : Replicator σ

/-- `SkippedReason` (the source names the overwrite-disabled variant
`Overwrite`; the spec calls it `OverwriteDisabled`). -/
inductive SkippedReason where
  | overwrite
  | sameFile
deriving DecidableEq, Repr

/-- `SortResult`. -/
inductive SortResult where
  | skipped (replicatePath : RPath) (reason : SkippedReason)
  | replicated (replicatePath : RPath) (overwrite : Bool)
deriving DecidableEq, Repr

/-- `SortError` (the `TemplateError` stage is upstream of
`replicate_file` and not needed here). -/
inductive SortError where
  | replicateError (cause : IoError) (dst : RPath)
  | overwriteError (cause : IoError) (dst : RPath)
deriving DecidableEq, Repr

/-- The removal step of the overwrite branch: `remove_dir_all` when the
destination is a directory, else `remove_file` (src/sort.rs lines 67-73). -/
def removeDst {σ : Type} (w : FsWorld σ) (s : σ) (dst : RPath) :
    Except IoError Unit × σ :=
  if w.isDir s dst then w.removeDirAll s dst else w.removeFile s dst

/-- The parent-directory step: `create_dir_all(parent)` when the
destination has a parent (src/sort.rs lines 83-87). -/
def ensureParent {σ : Type} (w : FsWorld σ) (s : σ) (dst : RPath) :
    Except IoError Unit × σ :=
  match RPath.parent dst with
  | some parent => w.createDirAll s parent
  | none => (Except.ok (), s)

/-- The tail of `replicate_file` after the overwrite decision: ensure
the parent directory, then invoke the replicator chain; both failures
are `ReplicateError(cause, destination)` (src/sort.rs lines 82-96). -/
def finishReplicate {σ : Type} (w : FsWorld σ) (cfg : SortConfig σ)
    (src dst : RPath) (s : σ) (overwrote : Bool) :
    Except SortError SortResult × σ :=
  match ensureParent w s dst with
  | (Except.error e, s2) => (Except.error (SortError.replicateError e dst), s2)
  | (Except.ok _, s2) =>
    match cfg.replicator.replicate src dst s2 with
    | (Except.error e, s3) => (Except.error (SortError.replicateError e dst), s3)
    | (Except.ok _, s3) => (Except.ok (SortResult.replicated dst overwrote), s3)

/-- `Sorter::replicate_file` (src/sort.rs lines 54-97): compare the
rendered destination against the source WITHOUT canonicalizing either
(the source's TODO), skip as `SameFile` on equality; otherwise apply
the overwrite policy, then replicate. -/
def replicateFile {σ : Type} (w : FsWorld σ) (cfg : SortConfig σ)
    (src dst : RPath) (s : σ) : Except SortError SortResult × σ :=
  if dst = src then
    (Except.ok (SortResult.skipped dst SkippedReason.sameFile), s)
  else if w.pathExists s dst then
    if cfg.overwrite then
      match removeDst w s dst with
      | (Except.error e, s2) => (Except.error (SortError.overwriteError e dst), s2)
      | (Except.ok _, s2) => finishReplicate w cfg src dst s2 true
    else
      (Except.ok (SortResult.skipped dst SkippedReason.overwrite), s)
  else finishReplicate w cfg src dst s false

/-! ## Watch event adapter (src/bin/photosort/watch.rs) -/

/-- `notify::event::AccessMode` (closed external event vocabulary). -/
inductive AccessMode where
  | anyMode | execute | read | write | otherMode
deriving DecidableEq, Repr

/-- `notify::event::AccessKind`. -/
inductive AccessKind where
  | anyKind | read | openKind (m : AccessMode) | close (m : AccessMode) | otherKind
deriving DecidableEq, Repr

/-- `notify::event::CreateKind`. -/
inductive CreateKind where
  | anyKind | file | folder | otherKind
deriving DecidableEq, Repr

/-- `notify::EventKind` (the kinds the adapter never matches are
collapsed into their top-level tags). -/
inductive EventKind where
  | anyKind
  | access (k : AccessKind)
  | create (k : CreateKind)
  | modifyKind
  | removeKind
  | otherKind
deriving DecidableEq, Repr

/-- A path delivered by the event source: valid UTF-8 or not
(`Path::to_str` returns `None` on the latter). -/
inductive WPath where
  | utf8 (s : String)
  | nonUtf8 (tag : Nat)
deriving DecidableEq, Repr

/-- `Path::to_str`. -/
def WPath.toStr : WPath → Option String
  | WPath.utf8 s => some s
  | WPath.nonUtf8 _ => none

/-- A `notify::Event`: kind tag plus affected path list. -/
structure WEvent where
  kind : EventKind
  paths : List WPath
deriving DecidableEq, Repr

/-- `FilterReason` (src/bin/photosort/watch.rs lines 114-120). -/
inductive FilterReason where
  | missingEventPath (ev : WEvent)
  | matchIgnoreRegex (p : WPath)
deriving DecidableEq, Repr

/-- `EventFilter::filter` (src/bin/photosort/watch.rs lines 131-149):
an empty path list is `MissingEventPath`; a non-UTF-8 first path passes
the filter; otherwise the optional ignore pattern is matched against
the textual form. -/
def eventFilter (ignoreRegex : Option (String → Bool)) (ev : WEvent) :
    Except FilterReason Unit :=
  match ev.paths.head? with
  | none => Except.error (FilterReason.missingEventPath ev)
  | some p =>
    match p.toStr with
    | none => Except.ok ()
    | some str =>
      match ignoreRegex with
      | some rx =>
        if rx str then Except.error (FilterReason.matchIgnoreRegex p)
        else Except.ok ()
      | none => Except.ok ()

/-- `EventHandlerResult`, with the sort outcome abstracted to `α`. -/
inductive EventHandlerResult (α : Type) where
  | ignored (ev : WEvent)
  | sort (p : WPath) (r : α)
  | filtered (reason : FilterReason)
deriving DecidableEq, Repr

/-- Is the event kind a sort candidate
(`Access(Close(Write)) | Create(File)`)? -/
def isCandidateKind : EventKind → Bool
  | EventKind.access (AccessKind.close AccessMode.write) => true
  | EventKind.create CreateKind.file => true
  | _ => false

/-- `EventHandler::handle_event` (src/bin/photosort/watch.rs lines
85-111), instrumented with the number of Sort Engine invocations
(`sorter.sort_file` calls).  `event.paths[0]` after a passing filter is
modelled faithfully: an empty list there would be an index panic
(`none`), but the filter already rejected that case. -/
def handleEvent {α : Type} (ignoreRegex : Option (String → Bool))
    (sorter : WPath → α) (ev : WEvent) :
    Option (EventHandlerResult α × Nat) :=
  if isCandidateKind ev.kind then
    match eventFilter ignoreRegex ev with
    | Except.error reason => some (EventHandlerResult.filtered reason, 0)
    | Except.ok _ =>
      match ev.paths with
      | [] => none
      | p :: _ => some (EventHandlerResult.sort p (sorter p), 1)
  else some (EventHandlerResult.ignored ev, 0)

/-! ## A small concrete filesystem used for witnesses and counterexamples

State: the list of existing files with their contents.  `canonicalize`
resolves `".."` components and requires the target to exist, as
`fs::canonicalize` does. -/

/-- Concrete filesystem state: existing files and their contents. -/
abbrev DemoFS := List (RPath × String)

/-- Does a file exist at this exact component path? -/
def demoExists (s : DemoFS) (p : RPath) : Bool :=
  s.any fun e => e.1 = p

/-- Remove the entry at a path (always succeeds). -/
def demoRemove (s : DemoFS) (p : RPath) : Except IoError Unit × DemoFS :=
  (Except.ok (), s.filter fun e => e.1 ≠ p)

/-- Resolve `".."` components against the preceding ones. -/
def resolveDots (p : RPath) : RPath :=
  p.foldl (fun acc c => if c = ".." then acc.dropLast else acc ++ [c]) []

/-- The concrete filesystem collaborator. -/
def demoWorld : FsWorld DemoFS where
  pathExists := demoExists
  isDir := fun _ _ => false
  removeDirAll := demoRemove
  removeFile := demoRemove
  createDirAll := fun s _ => (Except.ok (), s)
  canonicalize := fun s p =>
    let r := resolveDots p
    if demoExists s r then some r else none

/-- A byte-copy strategy on the concrete filesystem: the OS resolves the
source path, so the copy reads through `resolveDots`; copying a missing
source fails. -/
def demoCopyRun (src dst : RPath) (s : DemoFS) : Except IoError Unit × DemoFS :=
  match s.lookup (resolveDots src) with
  | some content => (Except.ok (), (dst, content) :: s.filter fun e => e.1 ≠ dst)
  | none => (Except.error (IoError.custom "copy failed"), s)

/-! ## Claims -/

/-- C1: the claim says a destination that CANONICALLY equals the source
is skipped as `SameFile` with no filesystem mutation, even under
overwrite.  `Sorter::replicate_file` compares the two paths without
canonicalizing (its own `TODO canonicalize src and replicate path`
comment marks the gap), so a source reached as `d/../b.txt` whose
rendered destination is `b.txt` — the same file after canonicalization —
is NOT skipped: the overwrite branch removes the destination (the
source itself) and the subsequent copy fails, leaving the filesystem
mutated (the file is gone) and an error outcome instead of
`Skipped(SameFile)`. -/
theorem c1_same_file_check_ignores_canonicalization :
    demoWorld.canonicalize [(["b.txt"], "DATA")] ["d", "..", "b.txt"] = some ["b.txt"]
    ∧ demoWorld.canonicalize [(["b.txt"], "DATA")] ["b.txt"] = some ["b.txt"]
    ∧ (["d", "..", "b.txt"] : RPath) ≠ ["b.txt"]
    ∧ replicateFile demoWorld
        { overwrite := true,
          replicator := Replicator.prim ReplicatorKind.copy demoCopyRun }
        ["d", "..", "b.txt"] ["b.txt"] [(["b.txt"], "DATA")] =
      (Except.error (SortError.replicateError (IoError.custom "copy failed") ["b.txt"]), [])
    ∧ ([] : DemoFS) ≠ [(["b.txt"], "DATA")] := by
  refine ⟨by decide, by decide, by decide, by decide, by decide⟩

/-- C2: for a destination different from the source that already
exists: with overwrite disabled the outcome is `Skipped(Overwrite)` and
the state is untouched; with overwrite enabled a removal failure is a
terminal `OverwriteError(cause, destination)`, and when removal, parent
creation and replication succeed the outcome is
`Replicated(destination, overwrite = true)`. -/
theorem c2_overwrite_policy {σ : Type} (w : FsWorld σ) (cfg : SortConfig σ)
    (src dst : RPath) (s : σ) (hne : dst ≠ src)
    (hex : w.pathExists s dst = true) :
    (cfg.overwrite = false →
      replicateFile w cfg src dst s =
        (Except.ok (SortResult.skipped dst SkippedReason.overwrite), s))
    ∧ (∀ e s2, cfg.overwrite = true →
        removeDst w s dst = (Except.error e, s2) →
        replicateFile w cfg src dst s =
          (Except.error (SortError.overwriteError e dst), s2))
    ∧ (∀ s2 s3 s4, cfg.overwrite = true →
        removeDst w s dst = (Except.ok (), s2) →
        ensureParent w s2 dst = (Except.ok (), s3) →
        cfg.replicator.replicate src dst s3 = (Except.ok (), s4) →
        replicateFile w cfg src dst s =
          (Except.ok (SortResult.replicated dst true), s4)) := by
  refine ⟨?_, ?_, ?_⟩
  · intro hov
    simp [replicateFile, hne, hex, hov]
  · intro e s2 hov hrm
    simp [replicateFile, hne, hex, hov, hrm]
  · intro s2 s3 s4 hov hrm hpar hrep
    simp [replicateFile, hne, hex, hov, hrm, finishReplicate, hpar, hrep]

/-- Witness for C2 on the concrete filesystem: overwriting an existing
`out.txt` from `in.txt` replaces it and reports `overwrite = true`. -/
theorem c2_overwrite_policy_witness :
    replicateFile demoWorld
      { overwrite := true,
        replicator := Replicator.prim ReplicatorKind.copy demoCopyRun }
      ["in.txt"] ["out.txt"]
      [(["out.txt"], "OLD"), (["in.txt"], "NEW")] =
    (Except.ok (SortResult.replicated ["out.txt"] true),
      [(["out.txt"], "NEW"), (["in.txt"], "NEW")]) :=
  (c2_overwrite_policy demoWorld
      { overwrite := true,
        replicator := Replicator.prim ReplicatorKind.copy demoCopyRun }
      ["in.txt"] ["out.txt"] [(["out.txt"], "OLD"), (["in.txt"], "NEW")]
      (by decide) (by decide)).2.2
    [(["in.txt"], "NEW")] [(["in.txt"], "NEW")]
    [(["out.txt"], "NEW"), (["in.txt"], "NEW")]
    rfl (by decide) (by decide) (by decide)

/-- C3: the claim (and the source's own `replicator_with_fallback` test,
src/replicator.rs line 498, which asserts the chain error displays as
`NONE_REPLICATE_ERR_MSG`) says a fully-failed chain returns the `None`
sentinel's fixed "exhausted" error.  The code instead wraps every
failure into a composite `ReplicatorFallbackError`: replaying the
test's own scenario (two mock strategies, third call where both fail),
the returned error is the composite and its display string differs from
the sentinel message the test expects. -/
theorem c3_exhausted_chain_error_is_composite :
    (Replicator.fromIter
        [Replicator.prim ReplicatorKind.noneKind
          (fun _ _ (s : Option String) =>
            match s with
            | none => (Except.ok (), some "foo")
            | some c => (Except.error (IoError.custom "replictor1 error"), some c)),
         Replicator.prim ReplicatorKind.noneKind
          (fun _ _ (s : Option String) =>
            match s with
            | some c =>
              if c = "bar" then (Except.error (IoError.custom "replictor2 error"), some c)
              else (Except.ok (), some "bar")
            | none => (Except.ok (), some "bar"))]).replicate
      ["tmp", "src.txt"] ["tmp", "dst.txt"] (some "bar") =
      (Except.error
        (IoError.fallbackWrap "none" (IoError.custom "replictor1 error")
          (IoError.fallbackWrap "none" (IoError.custom "replictor2 error")
            IoError.sentinel)),
        some "bar")
    ∧ (IoError.fallbackWrap "none" (IoError.custom "replictor1 error")
        (IoError.fallbackWrap "none" (IoError.custom "replictor2 error")
          IoError.sentinel)).toMessage ≠ noneReplicateErrMsg
    ∧ IoError.fallbackWrap "none" (IoError.custom "replictor1 error")
        (IoError.fallbackWrap "none" (IoError.custom "replictor2 error")
          IoError.sentinel) ≠ IoError.sentinel := by
  refine ⟨by decide, by decide, by decide⟩

/-- C4: the chain built from an ordered strategy list tries strategies
in order: an empty list degenerates to the sentinel (which fails on
every input); when the first strategy succeeds the chain returns that
success immediately, with exactly the first strategy's effect; when it
fails, the chain's outcome is the rest of the chain's outcome on the
resulting state (wrapped into a composite error when that also fails). -/
theorem c4_chain_order_and_empty_chain (σ : Type) (src dst : RPath) :
    (Replicator.fromIter ([] : List (Replicator σ)) = Replicator.noneRep)
    ∧ (∀ s : σ, Replicator.noneRep.replicate src dst s = (Except.error IoError.sentinel, s))
    ∧ (∀ (r : Replicator σ) (rest : List (Replicator σ)) (s s2 : σ),
        r.replicate src dst s = (Except.ok (), s2) →
        (Replicator.fromIter (r :: rest)).replicate src dst s = (Except.ok (), s2))
    ∧ (∀ (r : Replicator σ) (rest : List (Replicator σ)) (s s2 : σ) (e : IoError),
        r.replicate src dst s = (Except.error e, s2) →
        (Replicator.fromIter (r :: rest)).replicate src dst s =
          (match (Replicator.fromIter rest).replicate src dst s2 with
            | (Except.ok _, s3) => (Except.ok (), s3)
            | (Except.error e2, s3) =>
              (Except.error (IoError.fallbackWrap r.kind.kindStr e e2), s3))) := by
  refine ⟨rfl, fun s => rfl, ?_, ?_⟩
  · intro r rest s s2 h
    simp [Replicator.fromIter, Replicator.replicate, h]
  · intro r rest s s2 e h
    simp only [Replicator.fromIter, Replicator.replicate]
    rw [h]

/-- Witness for C4: a singleton chain around a succeeding strategy
returns that success untouched by the sentinel terminator. -/
theorem c4_chain_order_witness :
    (Replicator.fromIter
        [Replicator.prim ReplicatorKind.copy
          (fun _ _ (s : Nat) => (Except.ok (), s + 1))]).replicate
      ["a"] ["b"] 0 = (Except.ok (), 1) :=
  (c4_chain_order_and_empty_chain Nat ["a"] ["b"]).2.2.1
    (Replicator.prim ReplicatorKind.copy (fun _ _ s => (Except.ok (), s + 1)))
    [] 0 1 rfl

/-- C5: the parsing vectors of the spec: `parse("")` yields zero tokens;
`parse("a:b")` is `UnclosedVariable`; `parse("a::b")` is
`Un(n)amedVariable`; `parse(":x:/:y:")` yields exactly the three tokens
`[x, "/", y]` and renders to `1/2` when `x` renders to `1` and `y` to
`2`. -/
theorem c5_template_parse_vectors :
    Template.fromStr "" = some (Except.ok { tokens := [] })
    ∧ Template.fromStr "a:b" = some (Except.error (ParseError.unclosedVariable 2))
    ∧ Template.fromStr "a::b" = some (Except.error (ParseError.unamedVariable 2))
    ∧ Template.fromStr ":x:/:y:" =
        some (Except.ok { tokens := [Token.var "x", Token.str "/", Token.var "y"] })
    ∧ ([Token.var "x", Token.str "/", Token.var "y"] : List Token).length = 3
    ∧ Template.render { tokens := [Token.var "x", Token.str "/", Token.var "y"] }
        ((Context.empty.insert ["x"] (TValue.const "1")).insert ["y"] (TValue.const "2")) =
      some (Except.ok "1/2") := by
  refine ⟨by decide, by decide, by decide, by decide, by decide, by decide⟩

/-- C6: the claim says parsing is total and never panics, including on
multi-byte input.  `Template::from_str` slices `&s[start..i]` with CHAR
indices used as BYTE offsets, so the well-formed template `"é:x:"`
(a two-byte literal before a variable) makes it slice inside the UTF-8
encoding of `é` and panic (`none` in the model). -/
theorem c6_parse_panics_on_multibyte :
    Template.fromStr "é:x:" = none := by
  decide

/-- C7: the claim says every day 01–31 is accepted (naming 10, 20 and
30).  `DATE_REGEX`'s day alternation is `([0-2][1-9]|3[0-1])`, which
matches 01–09, 11–19, 21–29, 30 and 31 but NOT 10 or 20: filenames
carrying the valid dates 2022-11-10 and 2022-11-20 yield
`DateNotFound`, while day 30 and day 05 are accepted, 2-digit years and
out-of-range months are rejected, and a non-UTF-8 name is
`NotUTF8String`. -/
theorem c7_day_regex_rejects_10_and_20 :
    filenameNaivedate (some "picture-2022-11-10.jpg") =
      Except.error FileNameDateError.dateNotFound
    ∧ filenameNaivedate (some "picture-2022_11_20.jpg") =
      Except.error FileNameDateError.dateNotFound
    ∧ filenameNaivedate (some "picture-2022-11-30.jpg") = Except.ok (2022, 11, 30)
    ∧ filenameNaivedate (some "picture-2022-11-05.jpg") = Except.ok (2022, 11, 5)
    ∧ filenameNaivedate (some "picture-20221231.jpg") = Except.ok (2022, 12, 31)
    ∧ filenameNaivedate (some "picture-22-11-01.jpg") =
      Except.error FileNameDateError.dateNotFound
    ∧ filenameNaivedate (some "picture-2022-13-01.jpg") =
      Except.error FileNameDateError.dateNotFound
    ∧ filenameNaivedate none = Except.error FileNameDateError.notUTF8String := by
  refine ⟨by decide, by decide, by decide, by decide, by decide, by decide, by decide,
    by decide⟩

/-- C8: the watch adapter invokes the Sort Engine at most once per
event, and only for `Create(File)` / `Access(Close(Write))` events with
a non-empty path list whose first path passes the optional ignore
filter (non-UTF-8 paths pass); every other kind is `Ignored` with no
sort invocation, and a candidate with an empty path list is filtered as
`MissingEventPath` and never reaches the sorter. -/
theorem c8_watch_adapter_filtering {α : Type} (ignoreRegex : Option (String → Bool))
    (sorter : WPath → α) :
    (∀ ev, isCandidateKind ev.kind = false →
      handleEvent ignoreRegex sorter ev = some (EventHandlerResult.ignored ev, 0))
    ∧ (∀ ev, isCandidateKind ev.kind = true → ev.paths = [] →
      handleEvent ignoreRegex sorter ev =
        some (EventHandlerResult.filtered (FilterReason.missingEventPath ev), 0))
    ∧ (∀ ev p rest, isCandidateKind ev.kind = true → ev.paths = p :: rest →
      eventFilter ignoreRegex ev = Except.ok () →
      handleEvent ignoreRegex sorter ev =
        some (EventHandlerResult.sort p (sorter p), 1))
    ∧ (∀ ev p rest str rx, isCandidateKind ev.kind = true → ev.paths = p :: rest →
      p.toStr = some str → ignoreRegex = some rx → rx str = true →
      handleEvent ignoreRegex sorter ev =
        some (EventHandlerResult.filtered (FilterReason.matchIgnoreRegex p), 0))
    ∧ (∀ ev p rest, ev.paths = p :: rest → p.toStr = none →
      eventFilter ignoreRegex ev = Except.ok ())
    ∧ (∀ ev res n, handleEvent ignoreRegex sorter ev = some (res, n) → n ≤ 1) := by
  refine ⟨?_, ?_, ?_, ?_, ?_, ?_⟩
  · intro ev h
    simp [handleEvent, h]
  · intro ev h hp
    simp [handleEvent, h, eventFilter, hp]
  · intro ev p rest h hp hf
    simp [handleEvent, h, hf, hp]
  · intro ev p rest str rx h hp hstr hrx hmatch
    simp [handleEvent, h, eventFilter, hp, hstr, hrx, hmatch]
  · intro ev p rest hp hstr
    simp [eventFilter, hp, hstr]
  · intro ev res n h
    unfold handleEvent at h
    split at h
    · split at h
      · injection h with h2
        cases h2
        omega
      · split at h
        · exact absurd h (by simp)
        · injection h with h2
          cases h2
          omega
    · injection h with h2
      cases h2
      omega

/-- Witness for C8: a file-creation event with one UTF-8 path and no
ignore pattern produces exactly one sort invocation on that path. -/
theorem c8_watch_adapter_filtering_witness :
    handleEvent (α := Nat) none (fun _ => 7)
      { kind := EventKind.create CreateKind.file,
        paths := [WPath.utf8 "/watched/a.jpg"] } =
    some (EventHandlerResult.sort (WPath.utf8 "/watched/a.jpg") 7, 1) :=
  (c8_watch_adapter_filtering none (fun _ => 7)).2.2.1
    { kind := EventKind.create CreateKind.file,
      paths := [WPath.utf8 "/watched/a.jpg"] }
    (WPath.utf8 "/watched/a.jpg") [] rfl rfl rfl

/-- C9: the exif provider's hard per-field policy: with a readable
container whose `DateTime` field is absent, every `exif.*` facet fails
with the `MissingField` error (no empty value); with a non-I/O parse
failure of the container, `prepare_template_context` returns `Ok`
WITHOUT registering `exif.*`, so a template referencing `exif.date`
fails with `UndefinedVariable`; I/O failures on open or read are the
only errors preparation propagates. -/
theorem c9_exif_hard_field_policy (e : ExifData) (ctx : Context) (s : String)
    (hseed : ctx.get ":file.path" = some (TValue.const s)) :
    (e.dateTimeField = ExifDateTimeField.missing →
      ∀ name, name ∈ ["exif.date", "exif.date.year", "exif.date.month", "exif.date.day"] →
        exifRender e name = some (Except.error (VErr.exifMissingField "DateTime")))
    ∧ exifPrepareContext ctx (Except.ok ()) ContainerRead.parseErr = some (Except.ok ctx)
    ∧ (ctx.get "exif.date" = none →
      Template.render { tokens := [Token.var "exif.date"] } ctx =
        some (Except.error (RenderError.undefinedVariable "exif.date")))
    ∧ (∀ msg readRes, exifPrepareContext ctx (Except.error msg) readRes =
        some (Except.error (VErr.io msg)))
    ∧ (∀ msg, exifPrepareContext ctx (Except.ok ()) (ContainerRead.ioErr msg) =
        some (Except.error (VErr.io msg)))
    ∧ (∀ ex, exifPrepareContext ctx (Except.ok ()) (ContainerRead.exifOk ex) =
        some (Except.ok (ctx.insert
          ["exif.date", "exif.date.year", "exif.date.month", "exif.date.day"]
          (TValue.exif ex)))) := by
  refine ⟨?_, ?_, ?_, ?_, ?_, ?_⟩
  · intro hmiss name hname
    simp only [List.mem_cons, List.not_mem_nil, or_false] at hname
    rcases hname with rfl | rfl | rfl | rfl
    all_goals
      simp [exifRender, exifDate, exifDateYear, exifDateMonth, exifDateDay,
        exifDatetime, hmiss, Except.map]
  · simp [exifPrepareContext, hseed, TValue.render]
  · intro hnone
    simp [Template.render, renderTokens, hnone]
  · intro msg readRes
    simp [exifPrepareContext, hseed, TValue.render]
  · intro msg
    simp [exifPrepareContext, hseed, TValue.render]
  · intro ex
    simp [exifPrepareContext, hseed, TValue.render]

/-- Witness for C9: on a seeded context, a missing `DateTime` field
renders `exif.date` to the `MissingField` error. -/
theorem c9_exif_hard_field_policy_witness :
    exifRender { dateTimeField := ExifDateTimeField.missing } "exif.date" =
      some (Except.error (VErr.exifMissingField "DateTime")) :=
  (c9_exif_hard_field_policy { dateTimeField := ExifDateTimeField.missing }
      (Context.empty.insert [":file.path"] (TValue.const "/tmp/p.jpg")) "/tmp/p.jpg"
      (by decide)).1 rfl "exif.date" (by simp)

/-- C10: on any context whose private `:file.path` variable is seeded
with a path value, the identity facets `file.name`, `file.stem` and
`file.extension` always render successfully, producing the respective
path component when present and the empty string when the path lacks
it. -/
theorem c10_file_identity_facets_total (ctx : Context) (s : String)
    (hseed : ctx.get ":file.path" = some (TValue.const s)) :
    fileRender "file.name" ctx =
      some (Except.ok ((rustFileName (pathOfString s)).getD ""))
    ∧ fileRender "file.stem" ctx =
      some (Except.ok ((rustFileStem (pathOfString s)).getD ""))
    ∧ fileRender "file.extension" ctx =
      some (Except.ok ((rustExtension (pathOfString s)).getD ""))
    ∧ (rustFileName (pathOfString s) = none →
      fileRender "file.name" ctx = some (Except.ok ""))
    ∧ (rustFileStem (pathOfString s) = none →
      fileRender "file.stem" ctx = some (Except.ok ""))
    ∧ (rustExtension (pathOfString s) = none →
      fileRender "file.extension" ctx = some (Except.ok "")) := by
  have hbuf : filepathbuf ctx = some (pathOfString s) := by
    simp [filepathbuf, renderPrivPath, hseed]
  refine ⟨?_, ?_, ?_, ?_, ?_, ?_⟩
  · simp [fileRender, hbuf]
  · simp [fileRender, hbuf]
  · simp [fileRender, hbuf]
  · intro h
    simp [fileRender, hbuf, h]
  · intro h
    simp [fileRender, hbuf, h]
  · intro h
    simp [fileRender, hbuf, h]

/-- Witness for C10: a seeded context with an extension-less dotfile
path renders `file.name`/`file.stem` to the name and `file.extension`
to the empty string. -/
theorem c10_file_identity_facets_witness :
    fileRender "file.extension"
      (Context.empty.insert [":file.path"] (TValue.const "/home/u/.bashrc")) =
      some (Except.ok "") :=
  ((c10_file_identity_facets_total
      (Context.empty.insert [":file.path"] (TValue.const "/home/u/.bashrc"))
      "/home/u/.bashrc" (by decide)).2.2.2.2.2 (by decide))

end Photosort
